import Mathlib

/-!
Shallow embedding of the frequency meter in `src/main.c` (PIC12F675
gated-counting frequency meter with PWM analog output).

Machine integers are modelled as `Nat` with explicit `% 2^w` where the C
code's fixed-width arithmetic can wrap:
  * `freq` is a `uint32_t`, so the overflow accumulation `freq += 0x10000`
    is taken `% 2^32`;
  * `pwm_dc` is a `uint8_t`, so the assignment of the 32-bit division
    result truncates `% 2^8`;
  * `freq_cnt` is a `uint8_t`, so `freq_cnt -= 1` is `(freq_cnt + 255) % 256`.
The LED pin level (range indicator) is a `Bool`: `IO_SET` = `true`,
`IO_CLR` = `false`.
-/

namespace FreqMeter

/-- `#define FREQ_CNT 200` (main.c line 62): the gate tick count,
called GATE_TICKS in the design documents. -/
def FREQ_CNT : Nat := 200

/-- `#define FREQ_HIGH 20ul` (main.c line 64): full-scale frequency in MHz. -/
def FREQ_HIGH : Nat := 20

/-- The classification threshold `256ul * FREQ_CNT * FREQ_HIGH / 10`
appearing at main.c line 94. -/
def threshold : Nat := 256 * FREQ_CNT * FREQ_HIGH / 10

/-- The state touched by the interrupt handlers and the init routine:
the three globals `freq` (uint32), `pwm_dc` (uint8), `freq_cnt` (uint8),
the LED pin level, and the TMR1 hardware pulse counter (16-bit). -/
structure State where
  freq : Nat
  pwm_dc : Nat
  freq_cnt : Nat
  led : Bool
  tmr1 : Nat
deriving Repr, DecidableEq

/-- The value `freq10` latched at gate closure, main.c lines 82 and 85:
`freq |= TMR1; ... freq10 = freq`. Note the bitwise OR. -/
def latchCount (s : State) : Nat := s.freq ||| s.tmr1

/-- The gate-closure body, main.c lines 82-102: latch `freq10` (here
`latchCount s`, written out at each occurrence), reset `TMR1`, `freq` and
`freq_cnt`, classify against the threshold, and publish `pwm_dc` and the
LED level. -/
def gateClose (s : State) : State :=
  if latchCount s ≥ 256 * FREQ_CNT * FREQ_HIGH / 10 then
    { freq := 0, tmr1 := 0, freq_cnt := FREQ_CNT,
      pwm_dc := latchCount s / (FREQ_CNT * (FREQ_HIGH / 1)) % 2 ^ 8,
      led := true }
  else
    { freq := 0, tmr1 := 0, freq_cnt := FREQ_CNT,
      pwm_dc := latchCount s / (FREQ_CNT * (FREQ_HIGH / 10)) % 2 ^ 8,
      led := false }

/-- The TMR0 (gate tick) branch of `isr`, main.c lines 78-104: decrement
the uint8 downcounter (the decremented value `(freq_cnt + 255) % 256` is
written out at each occurrence); when it reaches zero, run the gate
closure. -/
def tmr0Tick (s : State) : State :=
  if (s.freq_cnt + 255) % 256 = 0 then
    gateClose { s with freq_cnt := (s.freq_cnt + 255) % 256 }
  else { s with freq_cnt := (s.freq_cnt + 255) % 256 }

/-- The TMR1 overflow branch of `isr`, main.c lines 107-110:
`freq += 0x10000ul` on the uint32 accumulator. -/
def tmr1Overflow (s : State) : State :=
  { s with freq := (s.freq + 0x10000) % 2 ^ 32 }

/-- The whole `isr` (main.c lines 74-112) as a function of the two
pending-interrupt flags: the TMR0 branch runs first, then the TMR1 branch. -/
def isr (t0if tmr1if : Bool) (s : State) : State :=
  let s1 := if t0if then tmr0Tick s else s
  if tmr1if then tmr1Overflow s1 else s1

/-- The variable initialization in `freq_init` (main.c lines 117-118 and
147): `pwm_dc = 0`, `freq_cnt = FREQ_CNT`, `TMR1 = 0`. -/
def freq_init (s : State) : State :=
  { s with pwm_dc := 0, freq_cnt := FREQ_CNT, tmr1 := 0 }

/-- One iteration of the output loop, main.c lines 164-165: the level
driven on PWM_PIN given the current values of the free-running counter
`PWM_CNT` (= TMR0) and of `pwm_dc`:
`if (PWM_CNT > pwm_dc) IO_CLR(...); else IO_SET(...)`. -/
def pwmPinLevel (pwm_cnt pwm_dc : Nat) : Bool :=
  if pwm_cnt > pwm_dc then false else true

/-! ### Helper lemmas -/

/-- When the low `n` bits of `f` are clear and `t` fits in `n` bits,
bitwise OR coincides with addition. -/
theorem lor_eq_add_of_lowbits (n f t : Nat) (hf : f % 2 ^ n = 0)
    (ht : t < 2 ^ n) : f ||| t = f + t := by
  obtain ⟨q, hq⟩ := Nat.dvd_of_mod_eq_zero hf
  subst hq
  apply Nat.eq_of_testBit_eq
  intro j
  rw [Nat.testBit_or, Nat.testBit_mul_pow_two_add q ht j,
    Nat.testBit_mul_pow_two]
  by_cases hj : j < n
  · simp [hj, Nat.not_le_of_lt hj]
  · have hle : n ≤ j := Nat.le_of_not_lt hj
    have htj : t.testBit j = false :=
      Nat.testBit_lt_two_pow (Nat.lt_of_lt_of_le ht (Nat.pow_le_pow_right (by omega) hle))
    simp [hj, hle, htj]

/-- Iterating the overflow handler `N` times adds `N * 0x10000`
to `freq`, modulo `2^32`, and leaves the other fields unchanged. -/
theorem tmr1Overflow_iterate (N : Nat) (s : State) (hs : s.freq < 2 ^ 32) :
    (tmr1Overflow^[N] s).freq = (s.freq + N * 0x10000) % 2 ^ 32 ∧
    (tmr1Overflow^[N] s).tmr1 = s.tmr1 := by
  induction N with
  | zero =>
    refine ⟨?_, rfl⟩
    simp only [Function.iterate_zero, id_eq]
    omega
  | succ n ih =>
    rw [Function.iterate_succ_apply']
    refine ⟨?_, ?_⟩
    · simp only [tmr1Overflow]
      rw [ih.1, Nat.mod_add_mod]
      ring_nf
    · simp only [tmr1Overflow]
      exact ih.2


/-- Unfolding equation for `latchCount`. -/
theorem latchCount_def (s : State) : latchCount s = s.freq ||| s.tmr1 := rfl

/-- Unconditionally, the gate closure zeroes `freq` and `TMR1` and reloads
`freq_cnt` to `FREQ_CNT`. -/
theorem gateClose_resets (s : State) :
    (gateClose s).freq = 0 ∧ (gateClose s).freq_cnt = FREQ_CNT ∧
    (gateClose s).tmr1 = 0 := by
  unfold gateClose
  split <;> exact ⟨rfl, rfl, rfl⟩

/-- The high-range branch of the gate closure. -/
theorem gateClose_high (s : State) (h : threshold ≤ latchCount s) :
    (gateClose s).pwm_dc = latchCount s / (FREQ_CNT * FREQ_HIGH) % 2 ^ 8 ∧
    (gateClose s).led = true := by
  unfold gateClose
  split
  · exact ⟨by norm_num [FREQ_CNT, FREQ_HIGH], rfl⟩
  · rename_i hc
    exact absurd h hc

/-- The low-range branch of the gate closure. -/
theorem gateClose_low (s : State) (h : latchCount s < threshold) :
    (gateClose s).pwm_dc = latchCount s / (FREQ_CNT * (FREQ_HIGH / 10)) % 2 ^ 8 ∧
    (gateClose s).led = false := by
  unfold gateClose
  split
  · rename_i hc
    exact absurd hc (Nat.not_le_of_lt h)
  · exact ⟨rfl, rfl⟩

/-! ### Claim theorems -/

/-- Claim C1, counterexample to the claim as stated: at effective count
1028000 (freq = 983040 accumulated, TMR1 residual 44960), which is above
the threshold, the published duty register is 1, not
floor(1028000/4000) = 257: the uint8 assignment truncates modulo 256. -/
theorem C1_counterexample :
    latchCount ⟨983040, 0, 200, false, 44960⟩ = 1028000 ∧
    1028000 ≥ threshold ∧
    (gateClose ⟨983040, 0, 200, false, 44960⟩).pwm_dc ≠
      1028000 / (FREQ_CNT * FREQ_HIGH) := by decide

/-- Claim C1 (amended): for every pulse count c = freq + TMR1 ≥ the
threshold 102400 accumulated over a gate window, the gate-closure handler
sets the duty register to floor(c / 4000) mod 256 and sets the range
indicator high. -/
theorem C1_high_range_duty (f t d fc : Nat) (l : Bool)
    (hf : f % 2 ^ 16 = 0) (ht : t < 2 ^ 16)
    (h : f + t ≥ threshold) :
    (gateClose ⟨f, d, fc, l, t⟩).pwm_dc = (f + t) / (FREQ_CNT * FREQ_HIGH) % 2 ^ 8 ∧
    (gateClose ⟨f, d, fc, l, t⟩).led = true ∧
    FREQ_CNT * FREQ_HIGH = 4000 ∧ threshold = 102400 := by
  have hor : latchCount ⟨f, d, fc, l, t⟩ = f + t := lor_eq_add_of_lowbits 16 f t hf ht
  obtain ⟨hp, hl⟩ := gateClose_high ⟨f, d, fc, l, t⟩ (by rw [hor]; exact h)
  rw [hp, hor]
  exact ⟨rfl, hl, by decide, by decide⟩

/-- Witness for C1_high_range_duty at freq = 131072, TMR1 = 928
(count 132000, duty 132000/4000 = 33). -/
theorem C1_high_range_duty_witness :
    131072 % 2 ^ 16 = 0 ∧ 928 < 2 ^ 16 ∧ 131072 + 928 ≥ threshold ∧
    ((gateClose ⟨131072, 0, 200, false, 928⟩).pwm_dc =
        (131072 + 928) / (FREQ_CNT * FREQ_HIGH) % 2 ^ 8 ∧
      (gateClose ⟨131072, 0, 200, false, 928⟩).led = true ∧
      FREQ_CNT * FREQ_HIGH = 4000 ∧ threshold = 102400) :=
  ⟨by decide, by decide, by decide,
    C1_high_range_duty 131072 928 0 200 false (by decide) (by decide) (by decide)⟩

/-- Claim C2: for every pulse count c = freq + TMR1 < the threshold 102400
accumulated over a gate window, the gate-closure handler sets the duty
register to floor(c / 400) and sets the range indicator low; in
particular count 0 yields duty 0. -/
theorem C2_low_range_duty (f t d fc : Nat) (l : Bool)
    (hf : f % 2 ^ 16 = 0) (ht : t < 2 ^ 16)
    (h : f + t < threshold) :
    (gateClose ⟨f, d, fc, l, t⟩).pwm_dc = (f + t) / (FREQ_CNT * (FREQ_HIGH / 10)) ∧
    (gateClose ⟨f, d, fc, l, t⟩).led = false ∧
    FREQ_CNT * (FREQ_HIGH / 10) = 400 ∧
    (gateClose ⟨0, d, fc, l, 0⟩).pwm_dc = 0 := by
  have hor : latchCount ⟨f, d, fc, l, t⟩ = f + t := lor_eq_add_of_lowbits 16 f t hf ht
  obtain ⟨hp, hl⟩ := gateClose_low ⟨f, d, fc, l, t⟩ (by rw [hor]; exact h)
  obtain ⟨hp0, -⟩ := gateClose_low ⟨0, d, fc, l, 0⟩
    (by show (0 : Nat) ||| 0 < threshold; decide)
  refine ⟨?_, hl, by decide, ?_⟩
  · rw [hp, hor]
    have h4 : FREQ_CNT * (FREQ_HIGH / 10) = 400 := by decide
    have hth : threshold = 102400 := by decide
    have h8 : (2 : Nat) ^ 8 = 256 := by norm_num
    rw [h4, h8]
    omega
  · rw [hp0]
    have e : latchCount ⟨0, d, fc, l, 0⟩ = 0 := by
      show (0 : Nat) ||| 0 = 0
      rfl
    rw [e]
    decide

/-- Witness for C2_low_range_duty at freq = 65536, TMR1 = 400
(count 65936, duty 65936/400 = 164). -/
theorem C2_low_range_duty_witness :
    65536 % 2 ^ 16 = 0 ∧ 400 < 2 ^ 16 ∧ 65536 + 400 < threshold ∧
    ((gateClose ⟨65536, 7, 200, true, 400⟩).pwm_dc =
        (65536 + 400) / (FREQ_CNT * (FREQ_HIGH / 10)) ∧
      (gateClose ⟨65536, 7, 200, true, 400⟩).led = false ∧
      FREQ_CNT * (FREQ_HIGH / 10) = 400 ∧
      (gateClose ⟨0, 7, 200, true, 0⟩).pwm_dc = 0) :=
  ⟨by decide, by decide, by decide,
    C2_low_range_duty 65536 400 7 200 true (by decide) (by decide) (by decide)⟩

/-- Claim C3: a latched count exactly equal to the threshold 102400
classifies as high range (the comparison at main.c line 94 is `>=`). -/
theorem C3_threshold_inclusive (s : State) (h : latchCount s = threshold) :
    (gateClose s).led = true ∧ threshold = 102400 :=
  ⟨(gateClose_high s (le_of_eq h.symm)).2, by decide⟩

/-- Witness for C3_threshold_inclusive at freq = 65536, TMR1 = 36864
(latched count 65536 ||| 36864 = 102400 = threshold). -/
theorem C3_threshold_inclusive_witness :
    latchCount ⟨65536, 0, 200, false, 36864⟩ = threshold ∧
    ((gateClose ⟨65536, 0, 200, false, 36864⟩).led = true ∧ threshold = 102400) :=
  ⟨by decide, C3_threshold_inclusive _ (by decide)⟩

/-- Claim C4, counterexample to the claim as stated: after 65536 overflow
firings with residual 0 the uint32 accumulator has wrapped, so the
effective count is 0, not 65536 * 65536 + 0. -/
theorem C4_counterexample :
    latchCount (tmr1Overflow^[65536] ⟨0, 0, 5, false, 0⟩) ≠ 65536 * 65536 + 0 := by
  obtain ⟨h1, h2⟩ := tmr1Overflow_iterate 65536 ⟨0, 0, 5, false, 0⟩ (by decide)
  rw [latchCount_def, h1, h2]
  decide

/-- Claim C4 (amended): starting from a state with accumulator 0, after N
overflow firings and a gate closure with raw residual r the effective
count passed to the classifier is (N * 65536 + r) mod 2^32, which equals
N * 65536 + r whenever N < 65536. -/
theorem C4_effective_count (N r : Nat) (s : State) (h0 : s.freq = 0)
    (hr : r < 2 ^ 16) :
    latchCount (tmr1Overflow^[N] { s with tmr1 := r }) = (N * 2 ^ 16 + r) % 2 ^ 32 ∧
    (N < 2 ^ 16 → latchCount (tmr1Overflow^[N] { s with tmr1 := r }) = N * 2 ^ 16 + r) := by
  have hs : ({ s with tmr1 := r } : State).freq < 2 ^ 32 := by
    have e : ({ s with tmr1 := r } : State).freq = s.freq := rfl
    rw [e, h0]
    norm_num
  obtain ⟨h1, h2⟩ := tmr1Overflow_iterate N { s with tmr1 := r } hs
  rw [latchCount_def, h1, h2]
  have e : ({ s with tmr1 := r } : State).freq = s.freq := rfl
  have e2 : ({ s with tmr1 := r } : State).tmr1 = r := rfl
  rw [e, e2, h0]
  rw [lor_eq_add_of_lowbits 16 ((0 + N * 0x10000) % 2 ^ 32) r (by omega) hr]
  constructor
  · omega
  · intro hN
    omega

/-- Witness for C4_effective_count at N = 3, r = 123. -/
theorem C4_effective_count_witness :
    (⟨0, 0, 5, false, 0⟩ : State).freq = 0 ∧ 123 < 2 ^ 16 ∧
    (latchCount (tmr1Overflow^[3] { (⟨0, 0, 5, false, 0⟩ : State) with tmr1 := 123 }) =
        (3 * 2 ^ 16 + 123) % 2 ^ 32 ∧
      (3 < 2 ^ 16 →
        latchCount (tmr1Overflow^[3] { (⟨0, 0, 5, false, 0⟩ : State) with tmr1 := 123 }) =
          3 * 2 ^ 16 + 123)) :=
  ⟨rfl, by decide, C4_effective_count 3 123 _ rfl (by decide)⟩

/-- Claim C5: whenever the timer-tick handler sees the downcounter reach
zero (pre-state freq_cnt = 1), it leaves the pulse accumulator freq at
exactly 0 and the downcounter at exactly FREQ_CNT = 200, for every
pre-state value of the accumulator and of the raw counter. -/
theorem C5_gate_closure_resets (s : State) (h : s.freq_cnt = 1) :
    (tmr0Tick s).freq = 0 ∧ (tmr0Tick s).freq_cnt = FREQ_CNT := by
  unfold tmr0Tick
  rw [h]
  rw [if_pos (show ((1 : Nat) + 255) % 256 = 0 from by norm_num)]
  exact ⟨(gateClose_resets _).1, (gateClose_resets _).2.1⟩

/-- Witness for C5_gate_closure_resets at a state with a nonzero
accumulator and raw counter. -/
theorem C5_gate_closure_resets_witness :
    (⟨196608, 9, 1, true, 1234⟩ : State).freq_cnt = 1 ∧
    ((tmr0Tick ⟨196608, 9, 1, true, 1234⟩).freq = 0 ∧
      (tmr0Tick ⟨196608, 9, 1, true, 1234⟩).freq_cnt = FREQ_CNT) :=
  ⟨rfl, C5_gate_closure_resets _ rfl⟩

/-- Claim C6: the downcounter equals FREQ_CNT = 200 after freq_init, and
every timer-tick invocation maps a downcounter value in [1, 200] back
into [1, 200] (reloading to 200 exactly when the decrement reaches 0). -/
theorem C6_downcounter_range :
    (∀ s : State, (freq_init s).freq_cnt = FREQ_CNT) ∧
    (∀ s : State, 1 ≤ s.freq_cnt → s.freq_cnt ≤ FREQ_CNT →
      1 ≤ (tmr0Tick s).freq_cnt ∧ (tmr0Tick s).freq_cnt ≤ FREQ_CNT) := by
  refine ⟨fun s => rfl, fun s h1 h2 => ?_⟩
  unfold tmr0Tick
  split
  · rw [(gateClose_resets _).2.1]
    exact ⟨by decide, le_refl _⟩
  · rename_i hc
    have e : ({ s with freq_cnt := (s.freq_cnt + 255) % 256 } : State).freq_cnt =
        (s.freq_cnt + 255) % 256 := rfl
    rw [e]
    have hF : FREQ_CNT = 200 := rfl
    rw [hF] at h2 ⊢
    omega

/-- Witness for C6_downcounter_range at downcounter value 37. -/
theorem C6_downcounter_range_witness :
    (freq_init ⟨0, 0, 0, false, 0⟩).freq_cnt = FREQ_CNT ∧
    (1 ≤ (⟨0, 0, 37, false, 0⟩ : State).freq_cnt ∧
      (⟨0, 0, 37, false, 0⟩ : State).freq_cnt ≤ FREQ_CNT) ∧
    (1 ≤ (tmr0Tick ⟨0, 0, 37, false, 0⟩).freq_cnt ∧
      (tmr0Tick ⟨0, 0, 37, false, 0⟩).freq_cnt ≤ FREQ_CNT) :=
  ⟨C6_downcounter_range.1 _, ⟨by decide, by decide⟩,
    C6_downcounter_range.2 ⟨0, 0, 37, false, 0⟩ (by decide) (by decide)⟩

/-- Claim C7: each iteration of the output loop drives the PWM pin low
exactly when the free-running counter strictly exceeds the duty register,
and high exactly when counter ≤ duty. -/
theorem C7_pwm_compare (c d : Nat) :
    (pwmPinLevel c d = false ↔ c > d) ∧ (pwmPinLevel c d = true ↔ c ≤ d) := by
  unfold pwmPinLevel
  by_cases h : c > d
  · simp [h, Nat.not_le_of_lt h]
  · simp [h, Nat.le_of_not_lt h]

/-- Claim C8: at the effective count 256 * FREQ_CNT * FREQ_HIGH = 1024000
produced by an input at exactly the configured full scale, the code takes
the high-range branch but publishes duty 256 mod 256 = 0, not a value
near 255. -/
theorem C8_full_scale_duty_wraps :
    latchCount ⟨983040, 0, 200, false, 40960⟩ = 256 * FREQ_CNT * FREQ_HIGH ∧
    (gateClose ⟨983040, 0, 200, false, 40960⟩).led = true ∧
    (gateClose ⟨983040, 0, 200, false, 40960⟩).pwm_dc = 0 := by decide

/-- Claim C9: for counts whose high-range quotient floor(c/4000) is at
least 256, no clamp is applied: the published duty is the quotient
reduced modulo 2^8, and the range indicator is still high. -/
theorem C9_no_clamp_wraparound (f t d fc : Nat) (l : Bool)
    (hf : f % 2 ^ 16 = 0) (ht : t < 2 ^ 16)
    (h : 256 ≤ (f + t) / (FREQ_CNT * FREQ_HIGH)) :
    (gateClose ⟨f, d, fc, l, t⟩).pwm_dc = (f + t) / (FREQ_CNT * FREQ_HIGH) % 2 ^ 8 ∧
    (gateClose ⟨f, d, fc, l, t⟩).led = true := by
  have hor : latchCount ⟨f, d, fc, l, t⟩ = f + t := lor_eq_add_of_lowbits 16 f t hf ht
  have h4 : FREQ_CNT * FREQ_HIGH = 4000 := by decide
  rw [h4] at h
  have hth : threshold ≤ f + t := by
    have e : threshold = 102400 := by decide
    omega
  obtain ⟨hp, hl⟩ := gateClose_high ⟨f, d, fc, l, t⟩ (by rw [hor]; exact hth)
  rw [hp, hor]
  exact ⟨rfl, hl⟩

/-- Witness for C9_no_clamp_wraparound at freq = 2097152, TMR1 = 0
(quotient 524, published duty 524 mod 256 = 12). -/
theorem C9_no_clamp_wraparound_witness :
    2097152 % 2 ^ 16 = 0 ∧ 0 < 2 ^ 16 ∧
    256 ≤ (2097152 + 0) / (FREQ_CNT * FREQ_HIGH) ∧
    ((gateClose ⟨2097152, 0, 200, false, 0⟩).pwm_dc =
        (2097152 + 0) / (FREQ_CNT * FREQ_HIGH) % 2 ^ 8 ∧
      (gateClose ⟨2097152, 0, 200, false, 0⟩).led = true) :=
  ⟨by decide, by decide, by decide,
    C9_no_clamp_wraparound 2097152 0 0 200 false (by decide) (by decide) (by decide)⟩

/-- Claim C10: when the accumulator's low 16 bits are zero the latch's
bitwise OR equals arithmetic addition, and that invariant holds of the
accumulator whenever the latch runs: it is preserved by the overflow
handler and re-established (as 0) by every gate closure. -/
theorem C10_or_equals_add :
    (∀ s : State, s.freq % 2 ^ 16 = 0 → s.tmr1 < 2 ^ 16 →
      latchCount s = s.freq + s.tmr1) ∧
    (∀ s : State, s.freq % 2 ^ 16 = 0 → (tmr1Overflow s).freq % 2 ^ 16 = 0) ∧
    (∀ s : State, (gateClose s).freq % 2 ^ 16 = 0) := by
  refine ⟨fun s hf ht => lor_eq_add_of_lowbits 16 s.freq s.tmr1 hf ht,
    fun s hf => ?_, fun s => ?_⟩
  · have e : (tmr1Overflow s).freq = (s.freq + 0x10000) % 2 ^ 32 := rfl
    rw [e]
    have h16 : (2 : Nat) ^ 16 = 65536 := by norm_num
    have h32 : (2 : Nat) ^ 32 = 4294967296 := by norm_num
    rw [h16, h32]
    rw [h16] at hf
    omega
  · rw [(gateClose_resets s).1]
    simp

/-- Witness for C10_or_equals_add at freq = 131072, TMR1 = 5. -/
theorem C10_or_equals_add_witness :
    (⟨131072, 0, 1, false, 5⟩ : State).freq % 2 ^ 16 = 0 ∧
    (⟨131072, 0, 1, false, 5⟩ : State).tmr1 < 2 ^ 16 ∧
    latchCount ⟨131072, 0, 1, false, 5⟩ =
      (⟨131072, 0, 1, false, 5⟩ : State).freq + (⟨131072, 0, 1, false, 5⟩ : State).tmr1 :=
  ⟨by decide, by decide, C10_or_equals_add.1 _ (by decide) (by decide)⟩

end FreqMeter
